import Mathlib

/-
Verification of the wishlists CRUD service.

The development is a shallow embedding of the repository's route layer
(src/service/routes.py) and model layer.  The live model layer is the
`service.models` package: `src/service/models/__init__.py` re-exports the
record classes from `.persistent_base`, `.wishlist` and `.wishlist_item`,
and `routes.py` imports `service.models`; the sibling legacy module
`src/service/models.py` is shadowed by the package on import.  Where the
package module files are not among the sources, the corresponding
definitions are modelled from the spec (their doc comments say so); the
legacy module's create/update/delete bodies, which are present in the
sources, carry the same commit/rollback contract and are embedded
directly.

Conventions of the embedding:
- database rows are lists of records; timestamps are abstract ticks (Nat)
  and `isoformat` is an injective stand-in for the textual date-time form;
- a JSON mapping body is a structure of `Option` fields (`none` = the key
  is absent; for the optional `description` field, absent and null are
  identified);
- an HTTP handler returns a `RouteResult` (normal response, abort with a
  status code, or an uncaught exception) and mutating handlers also return
  the post-request database;
- abort messages are transliterated without the quoting punctuation of the
  original f-strings.
-/

namespace Wishlists

/-- Schema of the Wishlist table (src/service/models.py lines 40-46 and spec
section 3): system-assigned id (`none` before insert), required name and
username, optional description, public flag, and two timestamps. -/
structure Wishlist where
  id : Option Nat
  name : String
  description : Option String
  username : String
  is_public : Bool
  created_at : Nat
  last_updated_at : Nat
deriving DecidableEq

/-- Schema of the WishlistItem table (spec section 3): system-assigned id,
required wishlist_id foreign key, product reference and denormalized
product fields, and two timestamps.  The price is modelled as an integer
number of currency minor units. -/
structure WishlistItem where
  id : Option Nat
  wishlist_id : Nat
  product_id : Nat
  product_name : String
  product_description : String
  product_price : Int
  created_at : Nat
  last_updated_at : Nat
deriving DecidableEq

/-- The relational store: the two tables. -/
structure DB where
  wishlists : List Wishlist
  items : List WishlistItem
deriving DecidableEq

/-- DataValidationError (src/service/models.py line 17): the typed error
raised on malformed input and on storage failures; `msg` is its message,
which for a storage failure is the underlying cause. -/
structure DataValidationError where
  msg : String
deriving DecidableEq

/-- Outcome of `db.session.commit()`: success, or an exception whose
message is the underlying cause. -/
inductive CommitOutcome where
  | success : CommitOutcome
  | failure : String → CommitOutcome
deriving DecidableEq

/-- Injective stand-in for the isoformat rendering of a timestamp. -/
def isoformat (t : Nat) : String :=
  toString t

/-- A JSON mapping for a Wishlist, as a structure of optional fields:
`none` means the key is absent from the mapping. -/
structure WishlistBody where
  id : Option Nat
  name : Option String
  description : Option String
  username : Option String
  is_public : Option Bool
  created_at : Option String
  last_updated_at : Option String
deriving DecidableEq

/-- A JSON mapping for a WishlistItem. -/
structure ItemBody where
  id : Option Nat
  wishlist_id : Option Nat
  product_id : Option Nat
  product_name : Option String
  product_description : Option String
  product_price : Option Int
  created_at : Option String
  last_updated_at : Option String
deriving DecidableEq

/-- The message of the validation error for a missing required wishlist
key: it names the key. -/
def missingMsg (k : String) : String :=
  "Invalid wishlist: missing " ++ k

/-- The message of the validation error for a missing required item key. -/
def itemMissingMsg (k : String) : String :=
  "Invalid item: missing " ++ k

/-- A record with every attribute at its column default, the state of
`Wishlist()` freshly constructed. -/
def blankWishlist : Wishlist :=
  ⟨none, "", none, "", false, 0, 0⟩

/-- A record with every attribute at its column default. -/
def blankItem : WishlistItem :=
  ⟨none, 0, 0, "", "", 0, 0, 0⟩

/-- Modelled from the spec: `Wishlist.serialize` lives in
`src/service/models/wishlist.py`, which is not among the sources (spec
section 4.2: a flat mapping of every attribute of section 3, timestamps in
the textual date-time format).  The nested item list is serialized
separately by the routes that need it and is not part of this mapping. -/
def Wishlist.serialize (w : Wishlist) : WishlistBody :=
  { id := w.id
    name := some w.name
    description := w.description
    username := some w.username
    is_public := some w.is_public
    created_at := some (isoformat w.created_at)
    last_updated_at := some (isoformat w.last_updated_at) }

/-- Modelled from the spec: `Wishlist.deserialize` lives in
`src/service/models/wishlist.py`, which is not among the sources (spec
section 4.2: reads the required fields from the input mapping into the
record; a missing required key raises a validation error whose message
names the key; identity and timestamps are not assigned from client
input).  The required keys and their order follow the request model
`create_wishlist_model` declared in src/service/routes.py lines 109-134. -/
def Wishlist.deserialize (w : Wishlist) (data : WishlistBody) :
    Except DataValidationError Wishlist :=
  match data.name with
  | none => .error ⟨missingMsg "name"⟩
  | some n =>
    match data.username with
    | none => .error ⟨missingMsg "username"⟩
    | some u =>
      match data.is_public with
      | none => .error ⟨missingMsg "is_public"⟩
      | some p =>
        .ok { w with
                name := n
                username := u
                description := data.description
                is_public := p }

/-- Modelled from the spec: `WishlistItem.serialize`, from
`src/service/models/wishlist_item.py`, not among the sources (spec
sections 4.2 and 6). -/
def WishlistItem.serialize (i : WishlistItem) : ItemBody :=
  { id := i.id
    wishlist_id := some i.wishlist_id
    product_id := some i.product_id
    product_name := some i.product_name
    product_description := some i.product_description
    product_price := some i.product_price
    created_at := some (isoformat i.created_at)
    last_updated_at := some (isoformat i.last_updated_at) }

/-- Modelled from the spec: `WishlistItem.deserialize`, from
`src/service/models/wishlist_item.py`, not among the sources (spec
sections 3 and 4.2: wishlist_id, product_id, product_name,
product_description and product_price are required). -/
def WishlistItem.deserialize (i : WishlistItem) (data : ItemBody) :
    Except DataValidationError WishlistItem :=
  match data.wishlist_id with
  | none => .error ⟨itemMissingMsg "wishlist_id"⟩
  | some wid =>
    match data.product_id with
    | none => .error ⟨itemMissingMsg "product_id"⟩
    | some pid =>
      match data.product_name with
      | none => .error ⟨itemMissingMsg "product_name"⟩
      | some pn =>
        match data.product_description with
        | none => .error ⟨itemMissingMsg "product_description"⟩
        | some pd =>
          match data.product_price with
          | none => .error ⟨itemMissingMsg "product_price"⟩
          | some pp =>
            .ok { i with
                    wishlist_id := wid
                    product_id := pid
                    product_name := pn
                    product_description := pd
                    product_price := pp }

/-- Wishlist.find (src/service/models.py lines 142-146): exact primary-key
lookup, absence is not an error. -/
def wishlistFind (db : DB) (wid : Nat) : Option Wishlist :=
  db.wishlists.find? (fun w => w.id == some wid)

/-- Wishlist.find_by_name (src/service/models.py lines 148-152): exact-match
filter on the name column. -/
def wishlistFindByName (db : DB) (n : String) : List Wishlist :=
  db.wishlists.filter (fun w => w.name == n)

/-- Modelled from the spec: `WishlistItem.find` lives in
`src/service/models/wishlist_item.py`, not among the sources (spec
section 4.1: exact primary-key match or not-found). -/
def itemFind (db : DB) (iid : Nat) : Option WishlistItem :=
  db.items.find? (fun i => i.id == some iid)

/-- Wishlist.create (src/service/models.py lines 51-63): clear the identity,
insert, commit; on success the database assigns the fresh id and the
creation timestamps (spec sections 3 and 4.1).  On a commit failure the
session is rolled back, so the store is unchanged, and a
DataValidationError carrying the cause is raised. -/
def wishlistCreate (db : DB) (w : Wishlist) (fresh now : Nat)
    (commit : CommitOutcome) : Except DataValidationError Wishlist × DB :=
  match commit with
  | .success =>
      let w1 := { w with id := some fresh, created_at := now, last_updated_at := now }
      (.ok w1, { db with wishlists := db.wishlists ++ [w1] })
  | .failure cause => (.error ⟨cause⟩, db)

/-- Wishlist.update (src/service/models.py lines 65-75): commit the pending
in-memory mutation `w1` of the row whose id is `wid`; the primary key is
not reassigned, and last_updated_at is set on every update (spec
section 3).  On a commit failure the session is rolled back, so the store
is unchanged, and a DataValidationError carrying the cause is raised. -/
def wishlistUpdate (db : DB) (wid : Nat) (w1 : Wishlist) (now : Nat)
    (commit : CommitOutcome) : Except DataValidationError Unit × DB :=
  match commit with
  | .success =>
      (.ok (), { db with
                   wishlists := db.wishlists.map (fun w =>
                     if w.id == some wid then
                       { w1 with id := some wid, last_updated_at := now }
                     else w) })
  | .failure cause => (.error ⟨cause⟩, db)

/-- Wishlist.delete (src/service/models.py lines 77-86): remove the row and
commit; deleting a Wishlist cascades deletion of its items — the cascade
is modelled from the spec (section 3), since the relationship is declared
in `src/service/models/wishlist.py`, not among the sources.  On a commit
failure the session is rolled back, so the store is unchanged, and a
DataValidationError carrying the cause is raised. -/
def wishlistDelete (db : DB) (w : Wishlist) (commit : CommitOutcome) :
    Except DataValidationError Unit × DB :=
  match commit with
  | .success =>
      (.ok (), { wishlists := db.wishlists.filter (fun x => !(x.id == w.id))
                 items := db.items.filter (fun i => !(w.id == some i.wishlist_id)) })
  | .failure cause => (.error ⟨cause⟩, db)

/-- Outcome of a handler: a normal response with a status code and body, an
abort with a status code and message, or an uncaught exception (a crash the
framework turns into a 500). -/
inductive RouteResult (α : Type) where
  | response : Nat → α → RouteResult α
  | aborted : Nat → String → RouteResult α
  | exn : String → RouteResult α
deriving DecidableEq

/-- The expected media type. -/
def jsonCT : String :=
  "application/json"

/-- The message of the unsupported-media-type abort. -/
def ctErrMsg : String :=
  "Content-Type must be application/json"

/-- check_content_type (src/service/routes.py lines 558-573): abort 415 when
the Content-Type header is absent, pass when it equals application/json
exactly, abort 415 otherwise.  `none` means the check passed. -/
def checkContentType (ct : Option String) : Option (Nat × String) :=
  match ct with
  | none => some (415, ctErrMsg)
  | some v => if v == jsonCT then none else some (415, ctErrMsg)

/-- Truthiness of `args[...]` for a reqparse string argument: an absent
argument is None and an empty string is falsy. -/
def argTruthy (arg : Option String) : Bool :=
  match arg with
  | none => false
  | some s => s != ""

/-- WishlistCollection.get (src/service/routes.py lines 268-289).  When the
name filter is truthy the handler computes `Wishlist.find_by_name(...)`, a
Query object, and then tests `if wishlists is not None:` — a Query object
is never None, so the branch always aborts 404 and the line that would
serialize the first match is unreachable. -/
def listWishlists (db : DB) (nameArg : Option String) :
    RouteResult (List WishlistBody) :=
  if argTruthy nameArg then
    let _ws := wishlistFindByName db (nameArg.getD "")
    RouteResult.aborted 404 ("wishlist with " ++ nameArg.getD "" ++ " does not exist.")
  else
    RouteResult.response 200 (db.wishlists.map Wishlist.serialize)

/-- WishlistCollection.post (src/service/routes.py lines 300-325): content
type gate, deserialize the payload into a fresh record (a validation error
is turned into a 400 by the error handler, modelled from the spec,
section 7, since `service/common` is not among the sources), abort 409
when any row already has the posted (username, name) pair, otherwise
create and respond 201 with the serialized record. -/
def createWishlistRoute (db : DB) (ct : Option String) (body : WishlistBody)
    (fresh now : Nat) : RouteResult WishlistBody × DB :=
  match checkContentType ct with
  | some (code, msg) => (.aborted code msg, db)
  | none =>
    match Wishlist.deserialize blankWishlist body with
    | .error e => (.aborted 400 e.msg, db)
    | .ok w =>
      let existing := db.wishlists.filter (fun x => x.username == w.username && x.name == w.name)
      if existing.isEmpty then
        match wishlistCreate db w fresh now CommitOutcome.success with
        | (.ok w1, db1) => (.response 201 w1.serialize, db1)
        | (.error e, db1) => (.aborted 500 e.msg, db1)
      else
        (.aborted 409 "Duplicate Wishlist", db)

/-- WishlistResource.put (src/service/routes.py lines 219-252): content type
gate, 404 when the id is absent, then the conflict check reads
body["username"] and body["name"] (an absent key raises an uncaught
KeyError) and aborts 409 when ANY row — the target row included — carries
that (username, name) pair; otherwise deserialize into the fetched record
and commit. -/
def updateWishlistRoute (db : DB) (wid : Nat) (ct : Option String)
    (body : WishlistBody) (now : Nat) : RouteResult WishlistBody × DB :=
  match checkContentType ct with
  | some (code, msg) => (.aborted code msg, db)
  | none =>
    match wishlistFind db wid with
    | none => (.aborted 404 ("Wishlist with id " ++ toString wid ++ " was not found."), db)
    | some wishlist =>
      match body.username, body.name with
      | some bu, some bn =>
        let existing := db.wishlists.filter (fun x => x.username == bu && x.name == bn)
        if existing.isEmpty then
          match Wishlist.deserialize wishlist body with
          | .error e => (.aborted 400 e.msg, db)
          | .ok w1 =>
            let upd := wishlistUpdate db wid w1 now CommitOutcome.success
            (.response 200 (Wishlist.serialize { w1 with id := some wid, last_updated_at := now }), upd.2)
        else
          (.aborted 409 "Duplicate Wishlist", db)
      | _, _ => (.exn "KeyError", db)

/-- WishlistResource.delete (src/service/routes.py lines 194-207): look the
wishlist up, delete it when present, respond 204 either way. -/
def deleteWishlistRoute (db : DB) (wid : Nat) : RouteResult String × DB :=
  match wishlistFind db wid with
  | none => (.response 204 "", db)
  | some w => (.response 204 "", (wishlistDelete db w CommitOutcome.success).2)

/-- PublishResource.put (src/service/routes.py lines 344-357): 404 when the
id is absent, otherwise set is_public to true and commit. -/
def publishRoute (db : DB) (wid now : Nat) : RouteResult WishlistBody × DB :=
  match wishlistFind db wid with
  | none => (.aborted 404 "Wishlist not found.", db)
  | some w =>
    let w1 := { w with is_public := true }
    let upd := wishlistUpdate db wid w1 now CommitOutcome.success
    (.response 200 (Wishlist.serialize { w1 with id := some wid, last_updated_at := now }), upd.2)

/-- UnpublishResource.put (src/service/routes.py lines 376-389): 404 when
the id is absent, otherwise set is_public to false and commit. -/
def unpublishRoute (db : DB) (wid now : Nat) : RouteResult WishlistBody × DB :=
  match wishlistFind db wid with
  | none => (.aborted 404 "Wishlist not found.", db)
  | some w =>
    let w1 := { w with is_public := false }
    let upd := wishlistUpdate db wid w1 now CommitOutcome.success
    (.response 200 (Wishlist.serialize { w1 with id := some wid, last_updated_at := now }), upd.2)

/-- ItemResource.get (src/service/routes.py lines 408-420): look the item up
by its own id and abort 404 only when it is absent; the path's wishlist id
is never compared against the item's wishlist_id. -/
def getItemRoute (db : DB) (wishlist_id item_id : Nat) : RouteResult ItemBody :=
  let _ := wishlist_id
  match itemFind db item_id with
  | none => RouteResult.aborted 404 ("Product with id " ++ toString item_id ++ " was not found.")
  | some product => RouteResult.response 200 product.serialize

/-- ItemResource.put (src/service/routes.py lines 431-450): content type
gate, 404 when the item id is absent (the path's wishlist id is not
checked), deserialize the payload into the fetched record, re-assert the
item's id and its original wishlist_id, and commit. -/
def updateItemRoute (db : DB) (wishlist_id item_id : Nat) (ct : Option String)
    (body : ItemBody) (now : Nat) : RouteResult ItemBody × DB :=
  let _ := wishlist_id
  match checkContentType ct with
  | some (code, msg) => (.aborted code msg, db)
  | none =>
    match itemFind db item_id with
    | none => (.aborted 404 ("Item with id " ++ toString item_id ++ " was not found"), db)
    | some product =>
      let original := product.wishlist_id
      match WishlistItem.deserialize product body with
      | .error e => (.aborted 400 e.msg, db)
      | .ok p1 =>
        let p2 := { p1 with id := some item_id, wishlist_id := original, last_updated_at := now }
        (.response 200 p2.serialize,
         { db with items := db.items.map (fun i => if i.id == some item_id then p2 else i) })

/-- ItemResource.delete (src/service/routes.py lines 457-469): look the item
up by its own id, delete it when present, respond 204 either way. -/
def deleteItemRoute (db : DB) (wishlist_id item_id : Nat) : RouteResult String × DB :=
  let _ := wishlist_id
  match itemFind db item_id with
  | none => (.response 204 "", db)
  | some it => (.response 204 "", { db with items := db.items.filter (fun x => !(x.id == it.id)) })

/-- ItemCollection.post (src/service/routes.py lines 525-551): content type
gate, 404 when the wishlist is absent, deserialize the payload into a
fresh item, then `wishlist.wishlist_items.append(item)` — the relationship
append points the item's foreign key at the wishlist — and commit. -/
def createItemRoute (db : DB) (wid : Nat) (ct : Option String) (body : ItemBody)
    (fresh now : Nat) : RouteResult ItemBody × DB :=
  match checkContentType ct with
  | some (code, msg) => (.aborted code msg, db)
  | none =>
    match wishlistFind db wid with
    | none => (.aborted 404 ("Wishlist with id " ++ toString wid ++ " was not found."), db)
    | some _w =>
      match WishlistItem.deserialize blankItem body with
      | .error e => (.aborted 400 e.msg, db)
      | .ok item =>
        let item1 := { item with id := some fresh, wishlist_id := wid,
                                 created_at := now, last_updated_at := now }
        (.response 201 item1.serialize, { db with items := db.items ++ [item1] })

/-- ASCII whitespace stripped by Python's int() conversion of a string. -/
def isPySpace (c : Char) : Bool :=
  c == ' ' || c == '\t' || c == '\n' || c == '\r'

/-- Numeric value of a digit string. -/
def digitsToNat (l : List Char) : Nat :=
  l.foldl (fun acc c => acc * 10 + (c.toNat - 48)) 0

/-- The tail of a decimal integer literal: digits, with single underscores
allowed strictly between digits. -/
def pyDigitsTail (l : List Char) : Bool :=
  match l with
  | [] => true
  | '_' :: c :: rest => c.isDigit && pyDigitsTail rest
  | c :: rest => c.isDigit && pyDigitsTail rest

/-- A nonempty decimal digit run, with single underscores allowed strictly
between digits. -/
def pyDigits (l : List Char) : Bool :=
  match l with
  | [] => false
  | c :: rest => c.isDigit && pyDigitsTail rest

/-- Value of a digit run once the grouping underscores are removed. -/
def pyDigitsVal (l : List Char) : Nat :=
  digitsToNat (l.filter (fun c => c != '_'))

/-- int() applied to an already-stripped character list: an optional sign
followed by a decimal digit run. -/
def pythonIntChars (l : List Char) : Option Int :=
  match l with
  | '-' :: rest => if pyDigits rest then some (-(pyDigitsVal rest : Int)) else none
  | '+' :: rest => if pyDigits rest then some ((pyDigitsVal rest : Int)) else none
  | _ => if pyDigits l then some ((pyDigitsVal l : Int)) else none

/-- Python's int() conversion of a string: strip surrounding whitespace,
then an optional sign and a decimal digit run; anything else raises
ValueError (`none` here).  Digits are modelled as ASCII; the non-ASCII
decimal digits int() also accepts are outside the model. -/
def pythonInt (s : String) : Option Int :=
  pythonIntChars (((s.toList.dropWhile isPySpace).reverse.dropWhile isPySpace).reverse)

/-- In Python an `==` comparison between a str and an int is always False. -/
def pyEqStrInt (_s : String) (_n : Int) : Bool :=
  false

/-- ItemCollection.get (src/service/routes.py lines 487-514): 404 when the
wishlist is absent; serialize its items; when the product_name argument is
truthy, the handler runs the comprehension
`[product for product in res if product["product_name"] == int(args["product_name"])]`.
The int() call sits inside the comprehension's per-item condition, so it
is evaluated only when the wishlist holds at least one item: on an empty
wishlist the comprehension yields [] without calling int(), and otherwise
int() raises an uncaught ValueError on a non-literal while on a literal
the str-vs-int comparison is always False.  Either surviving path then
tests `if res is not None:`, which is True of every list, so it always
aborts 404. -/
def listItemsRoute (db : DB) (wid : Nat) (productNameArg : Option String) :
    RouteResult (List ItemBody) :=
  match wishlistFind db wid with
  | none => RouteResult.aborted 404 "Wishlist not found."
  | some w =>
    let res := (db.items.filter (fun i => w.id == some i.wishlist_id)).map WishlistItem.serialize
    if argTruthy productNameArg then
      let s := productNameArg.getD ""
      match res with
      | [] =>
        RouteResult.aborted 404 ("Product with name " ++ s ++ " cannot be found.")
      | p :: rest =>
        match pythonInt s with
        | none => RouteResult.exn ("ValueError: invalid literal for int with base 10: " ++ s)
        | some v =>
          let _res1 := (p :: rest).filter (fun q => pyEqStrInt (q.product_name.getD "") v)
          RouteResult.aborted 404 ("Product with name " ++ s ++ " cannot be found.")
    else
      RouteResult.response 200 res

/-- Fixture: a stored wishlist named Sports owned by u1. -/
def demoWishlistSports : Wishlist :=
  ⟨some 1, "Sports", none, "u1", false, 0, 0⟩

/-- Fixture: a second stored wishlist. -/
def demoWishlistBooks : Wishlist :=
  ⟨some 2, "Books", none, "u1", false, 0, 0⟩

/-- Fixture: an item stored in wishlist 1. -/
def demoItemShoes : WishlistItem :=
  ⟨some 5, 1, 7, "shoes", "running shoes", 100, 0, 0⟩

/-- Fixture: a store with two wishlists and one item, belonging to
wishlist 1. -/
def demoDB : DB :=
  ⟨[demoWishlistSports, demoWishlistBooks], [demoItemShoes]⟩

/-- Fixture: an update body carrying the same (username, name) pair as the
stored wishlist 1 and a changed description. -/
def demoBodySelf : WishlistBody :=
  ⟨none, some "Sports", some "updated description", some "u1", some false, none, none⟩

/-- Fixture: an item body with every required key present. -/
def demoItemBody : ItemBody :=
  ⟨none, some 1, some 7, some "socks", some "wool socks", some 50, none, none⟩

/-- A non-JSON media type used as a witness input. -/
def htmlCT : String :=
  "test/html"

/-- C1: the name-filtered listing always aborts 404, even when a stored
wishlist matches the filter exactly — the handler tests
`if wishlists is not None:` on a Query object, which is never None.  The
fixture store contains a wishlist whose name equals the filter, as the
first conjunct records, yet the handler aborts, contradicting the claimed
200-with-matches behavior (and the repo's own test_get_wishlist_by_name). -/
theorem list_wishlists_filter_inverted :
    wishlistFindByName demoDB "Sports" = [demoWishlistSports] ∧
    listWishlists demoDB (some "Sports") =
      RouteResult.aborted 404 "wishlist with Sports does not exist." := by
  constructor
  · decide
  · decide

/-- C2: reading an item through the wrong wishlist succeeds.  Item 5 is
stored with wishlist_id 1, the path names wishlist 2, and the handler
returns 200 with the item instead of the claimed 404 — it never compares
the item's wishlist_id against the path (contradicting the repo's own
test_read_item_with_incorrect_wishlist_id). -/
theorem get_item_ignores_parent_mismatch :
    demoItemShoes.wishlist_id = 1 ∧ (1 : Nat) ≠ 2 ∧
    getItemRoute demoDB 2 5 = RouteResult.response 200 demoItemShoes.serialize := by
  refine ⟨by decide, by decide, by decide⟩

/-- C4: updating wishlist 1 with a body that keeps its own
(username, name) pair is rejected 409.  The conflict filter matches any
row with the body's pair, the target row included, so the claimed
unchanged-pair success with 200 does not happen; the first conjuncts
record that the body carries exactly the stored pair. -/
theorem update_wishlist_self_conflict :
    wishlistFind demoDB 1 = some demoWishlistSports ∧
    demoBodySelf.username = some demoWishlistSports.username ∧
    demoBodySelf.name = some demoWishlistSports.name ∧
    updateWishlistRoute demoDB 1 (some jsonCT) demoBodySelf 9 =
      (RouteResult.aborted 409 "Duplicate Wishlist", demoDB) := by
  refine ⟨by decide, by decide, by decide, by decide⟩

/-- C5: when the storage commit fails, create, update and delete all roll
back — the returned store is exactly the store passed in — and raise a
DataValidationError whose message is the underlying cause. -/
theorem storage_failure_rolls_back (db : DB) (w w1 : Wishlist)
    (wid fresh now : Nat) (cause : String) :
    wishlistCreate db w fresh now (CommitOutcome.failure cause) =
      (Except.error ⟨cause⟩, db) ∧
    wishlistUpdate db wid w1 now (CommitOutcome.failure cause) =
      (Except.error ⟨cause⟩, db) ∧
    wishlistDelete db w (CommitOutcome.failure cause) =
      (Except.error ⟨cause⟩, db) :=
  ⟨rfl, rfl, rfl⟩

/-- C3: deserializing the serialized form of any wishlist into a fresh
record preserves name, username, description and is_public. -/
theorem serialize_deserialize_roundtrip (w : Wishlist) :
    ∃ w2, Wishlist.deserialize blankWishlist (Wishlist.serialize w) = Except.ok w2 ∧
      w2.name = w.name ∧ w2.username = w.username ∧
      w2.description = w.description ∧ w2.is_public = w.is_public :=
  ⟨_, rfl, rfl, rfl, rfl, rfl⟩

/-- Whether a key is present in a wishlist mapping body. -/
def wishlistBodyHas (b : WishlistBody) (k : String) : Bool :=
  if k = "name" then b.name.isSome
  else if k = "username" then b.username.isSome
  else if k = "is_public" then b.is_public.isSome
  else if k = "description" then b.description.isSome
  else false

/-- C8: POST /wishlists with the JSON content type and a mapping body that
lacks the username key responds 400, leaves the store unchanged, and the
validation message names a key that is indeed absent from the body (the
required keys are read in declaration order, so the named key is `name`
when that one is missing too, and `username` otherwise). -/
theorem create_wishlist_missing_username (db : DB) (body : WishlistBody)
    (fresh now : Nat) (hu : body.username = none) :
    ∃ k, wishlistBodyHas body k = false ∧
      createWishlistRoute db (some jsonCT) body fresh now =
        (RouteResult.aborted 400 (missingMsg k), db) := by
  cases hn : body.name with
  | none =>
    refine ⟨"name", ?_, ?_⟩
    · simp +decide [wishlistBodyHas, hn]
    · simp [createWishlistRoute, checkContentType, Wishlist.deserialize, hn]
  | some n =>
    refine ⟨"username", ?_, ?_⟩
    · simp +decide [wishlistBodyHas, hu]
    · simp [createWishlistRoute, checkContentType, Wishlist.deserialize, hn, hu]

/-- C8 witness: the spec's scenario body, name present and username
absent, against the demo store. -/
theorem create_wishlist_missing_username_witness :
    ∃ k, wishlistBodyHas ⟨none, some "x", none, none, none, none, none⟩ k = false ∧
      createWishlistRoute demoDB (some jsonCT)
          ⟨none, some "x", none, none, none, none, none⟩ 3 9 =
        (RouteResult.aborted 400 (missingMsg k), demoDB) :=
  create_wishlist_missing_username demoDB ⟨none, some "x", none, none, none, none, none⟩ 3 9 rfl

/-- C9: every handler that consumes a request body — wishlist create and
update, item create and update — rejects a request whose Content-Type
header is missing or differs from application/json with 415 and an
unchanged store; the conclusion holds for every body value, so the
response is computed without reading or validating the body. -/
theorem body_routes_reject_bad_content_type (db : DB) (ct : Option String)
    (hct : checkContentType ct ≠ none) (wid iid fresh now : Nat)
    (wb : WishlistBody) (ib : ItemBody) :
    createWishlistRoute db ct wb fresh now = (RouteResult.aborted 415 ctErrMsg, db) ∧
    updateWishlistRoute db wid ct wb now = (RouteResult.aborted 415 ctErrMsg, db) ∧
    createItemRoute db wid ct ib fresh now = (RouteResult.aborted 415 ctErrMsg, db) ∧
    updateItemRoute db wid iid ct ib now = (RouteResult.aborted 415 ctErrMsg, db) := by
  have h : checkContentType ct = some (415, ctErrMsg) := by
    unfold checkContentType at hct ⊢
    cases ct with
    | none => rfl
    | some v =>
      by_cases hv : v == jsonCT
      · simp [hv] at hct
      · simp [hv]
  refine ⟨?_, ?_, ?_, ?_⟩
  · unfold createWishlistRoute
    rw [h]
  · unfold updateWishlistRoute
    rw [h]
  · unfold createItemRoute
    rw [h]
  · unfold updateItemRoute
    rw [h]

/-- C9 witness: a POST and PUT with the media type test/html against the
demo store are all rejected 415 whatever their bodies held. -/
theorem body_routes_reject_bad_content_type_witness :
    createWishlistRoute demoDB (some htmlCT) demoBodySelf 3 9 =
      (RouteResult.aborted 415 ctErrMsg, demoDB) ∧
    updateWishlistRoute demoDB 1 (some htmlCT) demoBodySelf 9 =
      (RouteResult.aborted 415 ctErrMsg, demoDB) ∧
    createItemRoute demoDB 1 (some htmlCT) demoItemBody 3 9 =
      (RouteResult.aborted 415 ctErrMsg, demoDB) ∧
    updateItemRoute demoDB 1 5 (some htmlCT) demoItemBody 9 =
      (RouteResult.aborted 415 ctErrMsg, demoDB) :=
  body_routes_reject_bad_content_type demoDB (some htmlCT) (by decide) 1 5 3 9
    demoBodySelf demoItemBody

/-- C10 counterexample: the claim quantifies over every product_name value
that is not a decimal integer literal, but the empty value is such a value
and does not raise — `if args["product_name"]:` is falsy on the empty
string, so the filter is skipped and the handler answers 200 with the
item list of the (existing) wishlist 1. -/
theorem list_items_empty_filter_no_exn :
    pythonInt "" = none ∧
    listItemsRoute demoDB 1 (some "") =
      RouteResult.response 200 [demoItemShoes.serialize] := by
  refine ⟨by decide, by decide⟩

/-- C10 as amended: on an existing wishlist that holds at least one item,
a non-empty product_name value that is not a decimal integer literal makes
the handler raise an uncaught ValueError from `int(args["product_name"])`
instead of returning a filtered item list (on an empty wishlist the
comprehension never evaluates the int() call and the handler aborts 404). -/
theorem list_items_nonint_filter_raises (db : DB) (wid : Nat) (w : Wishlist)
    (arg : String) (hw : wishlistFind db wid = some w)
    (hitems : db.items.filter (fun i => w.id == some i.wishlist_id) ≠ [])
    (hne : arg ≠ "") (hint : pythonInt arg = none) :
    listItemsRoute db wid (some arg) =
      RouteResult.exn ("ValueError: invalid literal for int with base 10: " ++ arg) := by
  have htr : argTruthy (some arg) = true := by
    simp [argTruthy, hne]
  unfold listItemsRoute
  rw [hw]
  cases hres : db.items.filter (fun i => w.id == some i.wishlist_id) with
  | nil => exact absurd hres hitems
  | cons x xs =>
    simp [htr, hres, hint]

/-- C10 witness: the value shoes on the demo store's wishlist 1, which
holds item 5. -/
theorem list_items_nonint_filter_raises_witness :
    listItemsRoute demoDB 1 (some "shoes") =
      RouteResult.exn ("ValueError: invalid literal for int with base 10: " ++ "shoes") :=
  list_items_nonint_filter_raises demoDB 1 demoWishlistSports "shoes"
    (by decide) (by decide) (by decide) (by decide)

/-- C7: creating a wishlist at tick t0 stores last_updated_at (and
created_at) = t0, and a successful update at tick t1, whatever mutation it
carries, stores last_updated_at = t1 — so when the two ticks differ the
stored last_updated_at is the update time, not the creation time. -/
theorem create_then_update_timestamps (db : DB) (w w1 : Wishlist)
    (fresh t0 t1 : Nat) (hfresh : ∀ x ∈ db.wishlists, x.id ≠ some fresh) :
    ∃ c u,
      wishlistFind (wishlistCreate db w fresh t0 CommitOutcome.success).2 fresh = some c ∧
      c.created_at = t0 ∧ c.last_updated_at = t0 ∧
      wishlistFind (wishlistUpdate (wishlistCreate db w fresh t0 CommitOutcome.success).2
          fresh w1 t1 CommitOutcome.success).2 fresh = some u ∧
      u.last_updated_at = t1 ∧
      (t1 ≠ t0 → u.last_updated_at ≠ c.created_at) := by
  have hpnone : db.wishlists.find? (fun x => x.id == some fresh) = none := by
    rw [List.find?_eq_none]
    intro x hx
    simp [hfresh x hx]
  refine ⟨{ w with id := some fresh, created_at := t0, last_updated_at := t0 },
          { w1 with id := some fresh, last_updated_at := t1 }, ?_, rfl, rfl, ?_, rfl, ?_⟩
  · simp only [wishlistCreate, wishlistFind]
    rw [List.find?_append, hpnone]
    simp [List.find?]
  · simp only [wishlistCreate, wishlistUpdate, wishlistFind]
    rw [List.map_append, List.find?_append]
    have h1 : (db.wishlists.map (fun x =>
        if x.id == some fresh then { w1 with id := some fresh, last_updated_at := t1 }
        else x)).find? (fun x => x.id == some fresh) = none := by
      rw [List.find?_eq_none]
      intro y hy
      rcases List.mem_map.mp hy with ⟨x, hx, rfl⟩
      have hxid : (x.id == some fresh) = false := by
        simp [hfresh x hx]
      simp [hxid]
    rw [h1]
    simp [List.find?]
  · intro hne
    simpa using hne

/-- C7 witness: create at tick 3 and update at tick 9 on the demo store,
with the fresh id 4. -/
theorem create_then_update_timestamps_witness :
    ∃ c u,
      wishlistFind (wishlistCreate demoDB demoWishlistSports 4 3 CommitOutcome.success).2 4 =
        some c ∧
      c.created_at = 3 ∧ c.last_updated_at = 3 ∧
      wishlistFind (wishlistUpdate
          (wishlistCreate demoDB demoWishlistSports 4 3 CommitOutcome.success).2
          4 demoWishlistBooks 9 CommitOutcome.success).2 4 = some u ∧
      u.last_updated_at = 9 ∧
      ((9 : Nat) ≠ 3 → u.last_updated_at ≠ c.created_at) :=
  create_then_update_timestamps demoDB demoWishlistSports demoWishlistBooks 4 3 9
    (by decide)

/-- Referential integrity of the store: every item's wishlist_id is the id
of some stored wishlist. -/
def refIntegrity (db : DB) : Prop :=
  ∀ i ∈ db.items, ∃ w ∈ db.wishlists, w.id = some i.wishlist_id

/-- The mutating requests of the service, carrying their bodies and the
server-chosen fresh ids and clock ticks. -/
inductive Op where
  | createW : WishlistBody → Nat → Nat → Op
  | updateW : Nat → WishlistBody → Nat → Op
  | deleteW : Nat → Op
  | publishW : Nat → Nat → Op
  | unpublishW : Nat → Nat → Op
  | createI : Nat → ItemBody → Nat → Nat → Op
  | updateI : Nat → Nat → ItemBody → Nat → Op
  | deleteI : Nat → Nat → Op

/-- The store after one mutating request, sent with the JSON content type
and committed successfully. -/
def applyOp (db : DB) (op : Op) : DB :=
  match op with
  | .createW b fresh now => (createWishlistRoute db (some jsonCT) b fresh now).2
  | .updateW wid b now => (updateWishlistRoute db wid (some jsonCT) b now).2
  | .deleteW wid => (deleteWishlistRoute db wid).2
  | .publishW wid now => (publishRoute db wid now).2
  | .unpublishW wid now => (unpublishRoute db wid now).2
  | .createI wid b fresh now => (createItemRoute db wid (some jsonCT) b fresh now).2
  | .updateI wid iid b now => (updateItemRoute db wid iid (some jsonCT) b now).2
  | .deleteI wid iid => (deleteItemRoute db wid iid).2

theorem checkContentType_json : checkContentType (some jsonCT) = none := by
  simp [checkContentType]

theorem wishlistFind_id {db : DB} {wid : Nat} {w : Wishlist}
    (h : wishlistFind db wid = some w) : w.id = some wid := by
  unfold wishlistFind at h
  simpa using List.find?_some h

theorem wishlistFind_mem {db : DB} {wid : Nat} {w : Wishlist}
    (h : wishlistFind db wid = some w) : w ∈ db.wishlists := by
  unfold wishlistFind at h
  exact List.mem_of_find?_eq_some h

theorem itemFind_mem {db : DB} {iid : Nat} {i : WishlistItem}
    (h : itemFind db iid = some i) : i ∈ db.items := by
  unfold itemFind at h
  exact List.mem_of_find?_eq_some h

theorem integ_wishlists_append (db : DB) (l : List Wishlist)
    (h : refIntegrity db) :
    refIntegrity { db with wishlists := db.wishlists ++ l } := by
  intro i hi
  rcases h i hi with ⟨w, hw, hid⟩
  exact ⟨w, List.mem_append_left _ hw, hid⟩

theorem integ_wishlists_map (db : DB) (f : Wishlist → Wishlist)
    (hf : ∀ w ∈ db.wishlists, (f w).id = w.id) (h : refIntegrity db) :
    refIntegrity { db with wishlists := db.wishlists.map f } := by
  intro i hi
  rcases h i hi with ⟨w, hw, hid⟩
  refine ⟨f w, List.mem_map_of_mem f hw, ?_⟩
  rw [hf w hw, hid]

theorem integ_items_of (db : DB) (its : List WishlistItem)
    (hsub : ∀ i ∈ its, ∃ j ∈ db.items, j.wishlist_id = i.wishlist_id)
    (h : refIntegrity db) : refIntegrity { db with items := its } := by
  intro i hi
  rcases hsub i hi with ⟨j, hj, hjw⟩
  rcases h j hj with ⟨w, hw, hid⟩
  exact ⟨w, hw, by rw [hid, hjw]⟩

theorem integ_items_append (db : DB) (i0 : WishlistItem)
    (hnew : ∃ w ∈ db.wishlists, w.id = some i0.wishlist_id)
    (h : refIntegrity db) :
    refIntegrity { db with items := db.items ++ [i0] } := by
  intro i hi
  rcases List.mem_append.mp hi with hi1 | hi1
  · exact h i hi1
  · obtain rfl := List.mem_singleton.mp hi1
    exact hnew

/-- C6: deleting a wishlist cascades — after DELETE /wishlists/{wid} no
stored item carries wishlist_id = wid — and every mutating operation of
the service preserves referential integrity, so no operation leaves an
item pointing at a wishlist that no longer exists. -/
theorem delete_cascades_no_dangling_items (db : DB) (wid : Nat) (op : Op)
    (hdb : refIntegrity db) :
    (∀ i ∈ (deleteWishlistRoute db wid).2.items, i.wishlist_id ≠ wid) ∧
    refIntegrity (applyOp db op) := by
  constructor
  · cases hfind : wishlistFind db wid with
    | none =>
      simp only [deleteWishlistRoute, hfind]
      intro i hi hcontra
      rcases hdb i hi with ⟨w, hw, hid⟩
      unfold wishlistFind at hfind
      rw [List.find?_eq_none] at hfind
      exact hfind w hw (by simp [hid, hcontra])
    | some w =>
      have hwid := wishlistFind_id hfind
      simp only [deleteWishlistRoute, hfind, wishlistDelete]
      intro i hi hcontra
      have hkeep := (List.mem_filter.mp hi).2
      rw [hwid, hcontra] at hkeep
      simp at hkeep
  · cases op with
    | createW b fresh now =>
      simp only [applyOp, createWishlistRoute, checkContentType_json]
      cases hd : Wishlist.deserialize blankWishlist b with
      | error e => exact hdb
      | ok w =>
        by_cases he : (db.wishlists.filter
            (fun x => x.username == w.username && x.name == w.name)).isEmpty
        · simp only [he, if_true, wishlistCreate]
          exact integ_wishlists_append db _ hdb
        · simp only [he, if_false]
          exact hdb
    | updateW wid1 b now =>
      simp only [applyOp, updateWishlistRoute, checkContentType_json]
      cases hfind1 : wishlistFind db wid1 with
      | none => exact hdb
      | some w0 =>
        cases hu : b.username with
        | none =>
          cases hnm : b.name with
          | none => exact hdb
          | some bn => exact hdb
        | some bu =>
          cases hnm : b.name with
          | none => exact hdb
          | some bn =>
            by_cases he : (db.wishlists.filter
                (fun x => x.username == bu && x.name == bn)).isEmpty
            · simp only [he, if_true]
              cases hd : Wishlist.deserialize w0 b with
              | error e => exact hdb
              | ok w1 =>
                simp only [wishlistUpdate]
                refine integ_wishlists_map db _ (fun x _hx => ?_) hdb
                by_cases hxx : (x.id == some wid1) = true
                · have hxid : x.id = some wid1 := by simpa using hxx
                  simp [hxx, hxid]
                · simp [hxx]
            · simp only [he, if_false]
              exact hdb
    | deleteW wid1 =>
      simp only [applyOp, deleteWishlistRoute]
      cases hfind1 : wishlistFind db wid1 with
      | none => exact hdb
      | some w =>
        have hwid := wishlistFind_id hfind1
        simp only [wishlistDelete]
        intro i hi
        have hmem := List.mem_filter.mp hi
        rcases hdb i hmem.1 with ⟨x, hx, hxid⟩
        refine ⟨x, List.mem_filter.mpr ⟨hx, ?_⟩, hxid⟩
        have hne : (w.id == some i.wishlist_id) = false := by
          simpa using hmem.2
        rw [hwid] at hne
        have hne2 : wid1 ≠ i.wishlist_id := by simpa using hne
        rw [hxid, hwid]
        simpa using hne2.symm
    | publishW wid1 now =>
      simp only [applyOp, publishRoute]
      cases hfind1 : wishlistFind db wid1 with
      | none => exact hdb
      | some w0 =>
        simp only [wishlistUpdate]
        refine integ_wishlists_map db _ (fun x _hx => ?_) hdb
        by_cases hxx : (x.id == some wid1) = true
        · have hxid : x.id = some wid1 := by simpa using hxx
          simp [hxx, hxid]
        · simp [hxx]
    | unpublishW wid1 now =>
      simp only [applyOp, unpublishRoute]
      cases hfind1 : wishlistFind db wid1 with
      | none => exact hdb
      | some w0 =>
        simp only [wishlistUpdate]
        refine integ_wishlists_map db _ (fun x _hx => ?_) hdb
        by_cases hxx : (x.id == some wid1) = true
        · have hxid : x.id = some wid1 := by simpa using hxx
          simp [hxx, hxid]
        · simp [hxx]
    | createI wid1 b fresh now =>
      simp only [applyOp, createItemRoute, checkContentType_json]
      cases hfind1 : wishlistFind db wid1 with
      | none => exact hdb
      | some w0 =>
        cases hd : WishlistItem.deserialize blankItem b with
        | error e => exact hdb
        | ok item =>
          refine integ_items_append db _ ⟨w0, wishlistFind_mem hfind1, ?_⟩ hdb
          simpa using wishlistFind_id hfind1
    | updateI wid1 iid b now =>
      cases hfind1 : itemFind db iid with
      | none =>
        simp only [applyOp, updateItemRoute, checkContentType_json, hfind1]
        exact hdb
      | some product =>
        simp only [applyOp, updateItemRoute, checkContentType_json, hfind1]
        cases hd : WishlistItem.deserialize product b with
        | error e => exact hdb
        | ok p1 =>
          refine integ_items_of db _ (fun i hi => ?_) hdb
          rcases List.mem_map.mp hi with ⟨j, hj, rfl⟩
          by_cases hjj : (j.id == some iid) = true
          · refine ⟨product, itemFind_mem hfind1, ?_⟩
            simp [hjj]
          · exact ⟨j, hj, by simp [hjj]⟩
    | deleteI wid1 iid =>
      simp only [applyOp, deleteItemRoute]
      cases hfind1 : itemFind db iid with
      | none => exact hdb
      | some it =>
        refine integ_items_of db _ (fun i hi => ?_) hdb
        exact ⟨i, (List.mem_filter.mp hi).1, rfl⟩

/-- C6 witness: the demo store satisfies referential integrity; deleting
wishlist 1 leaves no item pointing at it, and the delete operation, as an
applyOp step, preserves integrity. -/
theorem delete_cascades_no_dangling_items_witness :
    (∀ i ∈ (deleteWishlistRoute demoDB 1).2.items, i.wishlist_id ≠ 1) ∧
    refIntegrity (applyOp demoDB (Op.deleteW 1)) :=
  delete_cascades_no_dangling_items demoDB 1 (Op.deleteW 1)
    (by
      intro i hi
      fin_cases hi
      exact ⟨demoWishlistSports, by decide, by decide⟩)

end Wishlists
